import Mathlib

/-!
Verification of the KnowledgeCrawler entity-record pipeline.

This file gives a shallow embedding in Lean 4 of the core of the
`knowledge_crawler` Python package:

* `validator_module.py` — the JSON master schema and `validate_schema`;
* `utils.py` — `standardize_entity_id`, `assemble_json`, `save_json_to_file`;
* `main.py` — `process_entity` and the driver loop of `main`.

Python JSON values are modelled by the inductive `JsonValue`; Python dicts
(as produced by `json.loads`) are modelled by association lists
`List (String × JsonValue)` with first-match lookup, order-preserving
update-or-append assignment, and key-membership tests — these agree with
Python dict semantics because a Python dict never holds a duplicate key.

External collaborators (the LLM backend, the web crawler — whose module
`crawler_module` is not part of the sources —, the `pinyin` library, the
JSON parser and the file system) are modelled as oracle functions gathered
in the structures `FS` and `Env`; a Python exception raised by a
collaborator call is an `Except.error` value.
-/

namespace KnowledgeCrawler

/-- A Python exception, identified by a message. -/
inductive PyErr where
  | exn (msg : String)
deriving DecidableEq, Repr

/-- A JSON value as returned by `json.loads`. -/
inductive JsonValue where
  | str (s : String)
  | num (n : Int)
  | bool (b : Bool)
  | null
  | arr (elems : List JsonValue)
  | obj (fields : List (String × JsonValue))
deriving Repr

/-- A Python dict holding JSON values, in insertion order. -/
abbrev JsonObj := List (String × JsonValue)

/-- First-match lookup in a dict: `d[key]` / `d.get(key)`. -/
def lookupKey : JsonObj → String → Option JsonValue
  | [], _ => none
  | (k, v) :: rest, key => if k = key then some v else lookupKey rest key

/-- Python `key in d`. -/
def hasKey (d : JsonObj) (key : String) : Bool :=
  (lookupKey d key).isSome

/-- Python `d.get(key, default)`. -/
def getD (d : JsonObj) (key : String) (default : JsonValue) : JsonValue :=
  (lookupKey d key).getD default

/-- Python `d[key] = v`: update the existing binding, else append. -/
def dictSet (d : JsonObj) (key : String) (v : JsonValue) : JsonObj :=
  if hasKey d key then d.map (fun p => if p.1 = key then (p.1, v) else p)
  else d ++ [(key, v)]

/-- Python `x.get(key, default)` on an arbitrary JSON value: raises
`AttributeError` unless `x` is a dict. -/
def pyGet (x : JsonValue) (key : String) (default : JsonValue) :
    Except PyErr JsonValue :=
  match x with
  | JsonValue.obj fields => Except.ok (getD fields key default)
  | _ => Except.error (PyErr.exn "AttributeError")

/-- Python `repr(x)` for a JSON value (strings gain single quotes). -/
def pyRepr : JsonValue → String
  | JsonValue.str s => "\x27" ++ s ++ "\x27"
  | JsonValue.num n => toString n
  | JsonValue.bool b => cond b "True" "False"
  | JsonValue.null => "None"
  | JsonValue.arr elems =>
      "[" ++ String.intercalate ", " (elems.attach.map (fun e => pyRepr e.1)) ++ "]"
  | JsonValue.obj fields =>
      "\x7b" ++
        String.intercalate ", "
          (fields.attach.map (fun p =>
            "\x27" ++ p.1.1 ++ "\x27: " ++ pyRepr p.1.2)) ++
        "\x7d"
termination_by x => sizeOf x
decreasing_by
  all_goals simp_wf
  · have := List.sizeOf_lt_of_mem e.2
    omega
  · have h1 := List.sizeOf_lt_of_mem p.2
    have h2 : sizeOf p.1.2 < sizeOf p.1 := by
      cases p.1 with
      | mk a b => simp
    omega

/-- Python `str(x)` as used by f-string interpolation of a JSON value:
identity on strings, `repr` rendering on everything else. -/
def pyStr : JsonValue → String
  | JsonValue.str s => s
  | x => pyRepr x

/-- Python `str.strip()`: drop leading and trailing whitespace. -/
def pyStrip (s : String) : String :=
  String.mk
    (((s.data.dropWhile Char.isWhitespace).reverse.dropWhile
        Char.isWhitespace).reverse)

/-! ## validator_module.py -/

/-- A scalar type declaration in the master schema (`"type": ...`). -/
inductive SchemaType where
  | string
  | array
  | object
deriving DecidableEq, Repr

/-- `MASTER_SCHEMA["required"]` (validator_module.py, lines 41-44). -/
def MASTER_SCHEMA_required : List String :=
  ["entity_id", "label", "aliases", "source_file", "description",
   "background_context", "entity_type", "attributes", "relations"]

/-- The top-level `"type"` declaration of each entry of
`MASTER_SCHEMA["properties"]` (validator_module.py, lines 12-39). -/
def MASTER_SCHEMA_properties : List (String × SchemaType) :=
  [("entity_id", SchemaType.string),
   ("label", SchemaType.string),
   ("aliases", SchemaType.array),
   ("source_file", SchemaType.string),
   ("description", SchemaType.string),
   ("background_context", SchemaType.string),
   ("entity_type", SchemaType.object),
   ("attributes", SchemaType.object),
   ("relations", SchemaType.array)]

/-- `MASTER_SCHEMA["properties"]["entity_type"]["required"]`
(validator_module.py, line 25). -/
def ENTITY_TYPE_required : List String :=
  ["primary_type", "sub_type"]

/-- `MASTER_SCHEMA["properties"]["relations"]["items"]["required"]`
(validator_module.py, line 37). -/
def RELATION_ITEM_required : List String :=
  ["target_entity_id", "target_label", "relationship_type"]

/-- The `isinstance` check of `validate_schema` against a declared
schema type: `str` / `list` / `dict`. -/
def typeMatches : SchemaType → JsonValue → Bool
  | SchemaType.string, JsonValue.str _ => true
  | SchemaType.string, _ => false
  | SchemaType.array, JsonValue.arr _ => true
  | SchemaType.array, _ => false
  | SchemaType.object, JsonValue.obj _ => true
  | SchemaType.object, _ => false

/-- `validator_module.validate_schema`: every required top-level key must
be present, and every present declared property must have the declared
runtime shape. Nested structures are not examined (the source stops at
the comment `Deeper validation for nested objects can be added here`). -/
def validate_schema (json_obj : JsonObj) : Bool :=
  MASTER_SCHEMA_required.all (fun key => hasKey json_obj key) &&
  MASTER_SCHEMA_properties.all (fun p =>
    match lookupKey json_obj p.1 with
    | none => true
    | some v => typeMatches p.2 v)

/-! ## utils.py -/

/-- Membership in the regex class `[a-zA-Z0-9]` used by the final
`re.sub` of `standardize_entity_id`. -/
def isAsciiAlnum (c : Char) : Bool :=
  (Char.ofNat 97 ≤ c && c ≤ Char.ofNat 122) ||
  (Char.ofNat 65 ≤ c && c ≤ Char.ofNat 90) ||
  (Char.ofNat 48 ≤ c && c ≤ Char.ofNat 57)

/-- Membership in the regex class `[·-]` (middle dot, hyphen) removed by
the first `re.sub` of `standardize_entity_id`. -/
def isStrippedPunct (c : Char) : Bool :=
  c = Char.ofNat 183 || c = Char.ofNat 45

/-- Python `str.capitalize`: first character upper-cased, the rest
lower-cased. -/
def pyCapitalize (w : String) : String :=
  match w.data with
  | [] => ""
  | c :: cs => String.mk (Char.toUpper c :: cs.map Char.toLower)

/-- Worker for `pySplitWs`: split a character list at whitespace runs,
never emitting an empty word; `acc` holds the current word reversed. -/
def pySplitWsAux : List Char → List Char → List String
  | [], acc => if acc = [] then [] else [String.mk acc.reverse]
  | c :: cs, acc =>
      if Char.isWhitespace c then
        if acc = [] then pySplitWsAux cs []
        else String.mk acc.reverse :: pySplitWsAux cs []
      else pySplitWsAux cs (c :: acc)

/-- Python `str.split()` with no argument: split on whitespace runs and
drop empty fields. -/
def pySplitWs (s : String) : List String :=
  pySplitWsAux s.data []

/-- `utils.standardize_entity_id`, parameterised by the `pinyin.get`
transliteration collaborator (a third-party library): strip `[·-]`,
transliterate with space delimiters, capitalize each whitespace-separated
word and concatenate, then strip every character outside `[a-zA-Z0-9]`. -/
def standardize_entity_id (pinyinGet : String → String)
    (entity_name : String) : String :=
  let cleaned := String.mk (entity_name.data.filter (fun c => !isStrippedPunct c))
  let pinyin_str := pinyinGet cleaned
  let camel_case_id := String.join ((pySplitWs pinyin_str).map pyCapitalize)
  String.mk (camel_case_id.data.filter isAsciiAlnum)

/-- `utils.assemble_json`: merge the stage outputs into the canonical
record shape, substituting defaults for missing optional keys. -/
def assemble_json (pinyinGet : String → String)
    (entity_name : String) (source_file : String)
    (info : JsonObj) (relations : JsonValue) : JsonObj :=
  let aliases := if hasKey info "aliases" then getD info "aliases" (JsonValue.arr [])
                 else JsonValue.arr []
  [("entity_id", JsonValue.str (standardize_entity_id pinyinGet entity_name)),
   ("label", JsonValue.str entity_name),
   ("aliases", aliases),
   ("source_file", JsonValue.str source_file),
   ("description", getD info "description" (JsonValue.str "")),
   ("background_context", getD info "background_context" (JsonValue.str "")),
   ("entity_type", getD info "entity_type" (JsonValue.obj [])),
   ("attributes", getD info "attributes" (JsonValue.obj [])),
   ("relations", relations)]

/-- The file-system collaborator used by `save_json_to_file`:
`os.path.exists`, `os.makedirs`, and the `open`/`json.dump` write.
A raised exception is an `Except.error`. -/
structure FS where
  path_exists : String → Bool
  makedirs : String → Except PyErr Unit
  write : String → JsonObj → Except PyErr Unit

/-- The observable result of a `save_json_to_file` call: the path written
to and whether the write succeeded (the `except` branch only prints). -/
structure SaveResult where
  filepath : String
  success : Bool
deriving DecidableEq, Repr

/-- The path computed at utils.py lines 98-99:
`os.path.join(output_dir, f"{json_data.get('entity_id', 'unknown_entity')}.json")`. -/
def save_filepath (json_data : JsonObj) (output_dir : String) : String :=
  output_dir ++ "/" ++
    pyStr (getD json_data "entity_id" (JsonValue.str "unknown_entity")) ++ ".json"

/-- `utils.save_json_to_file`: ensure the output directory exists
(`os.makedirs` failures are outside the `try` and propagate), derive the
filename from the `entity_id` key with default `unknown_entity`, then
write; any exception from the open/write is caught and only reported. -/
def save_json_to_file (fs : FS) (json_data : JsonObj)
    (output_dir : String) : Except PyErr SaveResult :=
  match (if !fs.path_exists output_dir then fs.makedirs output_dir
         else Except.ok ()) with
  | Except.error e => Except.error e
  | Except.ok _ =>
    let filepath := save_filepath json_data output_dir
    match fs.write filepath json_data with
    | Except.ok _ => Except.ok { filepath := filepath, success := true }
    | Except.error _ => Except.ok { filepath := filepath, success := false }

/-- `save_json_to_file` applied to an arbitrary parsed JSON value, as in
`main.py` line 108: the `.get` call on a non-dict raises
`AttributeError`, which propagates (it sits outside the `try`). -/
def save_json_value (fs : FS) (v : JsonValue) (output_dir : String) :
    Except PyErr SaveResult :=
  match v with
  | JsonValue.obj fields => save_json_to_file fs fields output_dir
  | _ => Except.error (PyErr.exn "AttributeError")

/-! ## main.py -/

/-- `os.path.basename(INPUT_EXCEL_FILE)` (main.py, lines 20-21). -/
def SOURCE_FILENAME : String := "大渡河知识实体.xlsx"

/-- `OUTPUT_DIR` (main.py, line 22). -/
def OUTPUT_DIR : String := "output"

/-- A fully instantiated prompt, i.e. one of the module-level templates of
`llm_api_module.py` with its `.format` placeholders filled in. The
templates are pairwise distinct fixed texts, so a prompt is faithfully
identified by its template together with the interpolated fields. -/
inductive Prompt where
  | queryAugmented (entity_name : String)
  | typingAndDefinition (entity_name : String) (raw_text : String)
  | attributeExtraction (entity_name : String) (entity_type : String)
  | relationInference (entity_name : String) (all_entities_list : List String)
  | finalValidation (entity_name : String) (json_data : JsonValue)

/-- The collaborators of the per-entity pipeline: the LLM backend
(`llm_api_module.get_llm_response`), the JSON parser (`json.loads`),
the crawler (`crawler_module.crawl_web`, whose module is external to the
sources), the `pinyin` library, and the file system. An exception raised
by a collaborator is an `Except.error`. -/
structure Env where
  llm : Prompt → Except PyErr String
  jsonLoads : String → Except PyErr JsonValue
  crawl : JsonValue → Except PyErr String
  pinyinGet : String → String
  fs : FS

/-- One step of the per-entity pipeline, recorded in the execution trace
when the corresponding source block of `process_entity` starts running. -/
inductive Stage where
  | queryAugmented
  | retrieval
  | typing
  | attributeExtraction
  | relationInference
  | assembly
  | validation
  | correction
  | persistence
deriving DecidableEq, Repr

/-- How a `process_entity` call that returned normally ended:
the empty-retrieval early return (main.py lines 44-48), the
schema-validation early return (lines 96-98), or the save at line 108. -/
inductive ProcessOutcome where
  | infoNotFound
  | validationFailed
  | saved (result : SaveResult)
deriving DecidableEq, Repr

/-- `main.process_entity`: the per-entity pipeline. Returns the trace of
stages that started and either the outcome of a normal return or the
exception that propagated out of the call. -/
def process_entity (env : Env) (entity_name : String)
    (all_entities_list : List String) :
    List Stage × Except PyErr ProcessOutcome :=
  -- Stage 1: query augmentation and crawling
  match env.llm (Prompt.queryAugmented entity_name) with
  | Except.error e => ([Stage.queryAugmented], Except.error e)
  | Except.ok augmented_queries_str =>
  match env.jsonLoads augmented_queries_str with
  | Except.error e => ([Stage.queryAugmented], Except.error e)
  | Except.ok augmented_queries =>
  match env.crawl augmented_queries with
  | Except.error e =>
      ([Stage.queryAugmented, Stage.retrieval], Except.error e)
  | Except.ok raw_text =>
  if raw_text = "" ∨ pyStrip raw_text = "" then
    ([Stage.queryAugmented, Stage.retrieval], Except.ok ProcessOutcome.infoNotFound)
  else
  -- Stage 2: information structuring
  match env.llm (Prompt.typingAndDefinition entity_name raw_text) with
  | Except.error e =>
      ([Stage.queryAugmented, Stage.retrieval, Stage.typing], Except.error e)
  | Except.ok structured_info_str =>
  match env.jsonLoads structured_info_str with
  | Except.error e =>
      ([Stage.queryAugmented, Stage.retrieval, Stage.typing], Except.error e)
  | Except.ok structured_info =>
  match structured_info with
  | JsonValue.obj info_fields =>
    let entity_type_obj := getD info_fields "entity_type" (JsonValue.obj [])
    (match pyGet entity_type_obj "sub_type" (JsonValue.str "Unknown") with
     | Except.error e =>
        ([Stage.queryAugmented, Stage.retrieval, Stage.typing], Except.error e)
     | Except.ok entity_type_name =>
     match env.llm (Prompt.attributeExtraction entity_name (pyStr entity_type_name)) with
     | Except.error e =>
        ([Stage.queryAugmented, Stage.retrieval, Stage.typing,
          Stage.attributeExtraction], Except.error e)
     | Except.ok attributes_str =>
     match env.jsonLoads attributes_str with
     | Except.error e =>
        ([Stage.queryAugmented, Stage.retrieval, Stage.typing,
          Stage.attributeExtraction], Except.error e)
     | Except.ok attributes =>
     let info_fields2 := dictSet info_fields "attributes" attributes
     -- Stage 3: relation inference
     match env.llm (Prompt.relationInference entity_name all_entities_list) with
     | Except.error e =>
        ([Stage.queryAugmented, Stage.retrieval, Stage.typing,
          Stage.attributeExtraction, Stage.relationInference], Except.error e)
     | Except.ok relations_str =>
     match env.jsonLoads relations_str with
     | Except.error e =>
        ([Stage.queryAugmented, Stage.retrieval, Stage.typing,
          Stage.attributeExtraction, Stage.relationInference], Except.error e)
     | Except.ok relations =>
     -- Stage 4: synthesis, validation and JSON generation
     let final_json_obj :=
       assemble_json env.pinyinGet entity_name SOURCE_FILENAME info_fields2 relations
     if validate_schema final_json_obj = false then
       ([Stage.queryAugmented, Stage.retrieval, Stage.typing,
         Stage.attributeExtraction, Stage.relationInference,
         Stage.assembly, Stage.validation],
        Except.ok ProcessOutcome.validationFailed)
     else
     match env.llm (Prompt.finalValidation entity_name (JsonValue.obj final_json_obj)) with
     | Except.error e =>
        ([Stage.queryAugmented, Stage.retrieval, Stage.typing,
          Stage.attributeExtraction, Stage.relationInference,
          Stage.assembly, Stage.validation, Stage.correction], Except.error e)
     | Except.ok validated_json_str =>
     match env.jsonLoads validated_json_str with
     | Except.error e =>
        ([Stage.queryAugmented, Stage.retrieval, Stage.typing,
          Stage.attributeExtraction, Stage.relationInference,
          Stage.assembly, Stage.validation, Stage.correction], Except.error e)
     | Except.ok validated_json =>
     match save_json_value env.fs validated_json OUTPUT_DIR with
     | Except.error e =>
        ([Stage.queryAugmented, Stage.retrieval, Stage.typing,
          Stage.attributeExtraction, Stage.relationInference,
          Stage.assembly, Stage.validation, Stage.correction,
          Stage.persistence], Except.error e)
     | Except.ok r =>
        ([Stage.queryAugmented, Stage.retrieval, Stage.typing,
          Stage.attributeExtraction, Stage.relationInference,
          Stage.assembly, Stage.validation, Stage.correction,
          Stage.persistence], Except.ok (ProcessOutcome.saved r)))
  | _ =>
      -- `structured_info.get(...)` on a non-dict raises AttributeError
      ([Stage.queryAugmented, Stage.retrieval, Stage.typing],
       Except.error (PyErr.exn "AttributeError"))

/-- `all_entities_list[:2]` (main.py, line 130): the entities the driver
actually processes "for demonstration". -/
def entities_to_process (all_entities_list : List String) : List String :=
  all_entities_list.take 2

/-- One line of the driver's log: either the entity's pipeline returned
normally or its exception was caught by the `except` at main.py
lines 136-138 and reported as a critical error. -/
inductive DriverLogEntry where
  | completed (name : String) (trace : List Stage) (outcome : ProcessOutcome)
  | criticalError (name : String) (e : PyErr)

/-- The entity name a driver-log entry is about. -/
def DriverLogEntry.name : DriverLogEntry → String
  | DriverLogEntry.completed n _ _ => n
  | DriverLogEntry.criticalError n _ => n

/-- The body of the driver loop of `main` (main.py, lines 133-138):
run the pipeline, catching every exception. -/
def driver_step (env : Env) (all_entities_list : List String)
    (entity_name : String) : DriverLogEntry :=
  match process_entity env entity_name all_entities_list with
  | (tr, Except.ok o) => DriverLogEntry.completed entity_name tr o
  | (_, Except.error e) => DriverLogEntry.criticalError entity_name e

/-- `main.main`, parameterised by the roster returned by the loader
collaborator: exit at once on an empty roster, otherwise run the driver
loop over `all_entities_list[:2]`. -/
def main_run (env : Env) (all_entities_list : List String) :
    List DriverLogEntry :=
  if all_entities_list.isEmpty then []
  else (entities_to_process all_entities_list).map (driver_step env all_entities_list)

/-! ## Dictionary lemmas -/

theorem lookupKey_append (d₁ d₂ : JsonObj) (key : String) :
    lookupKey (d₁ ++ d₂) key =
      match lookupKey d₁ key with
      | some v => some v
      | none => lookupKey d₂ key := by
  induction d₁ with
  | nil => simp [lookupKey]
  | cons p rest ih =>
      by_cases h : p.1 = key
      · simp [lookupKey, h]
      · simp [lookupKey, h, ih]

theorem hasKey_append_left (d₁ d₂ : JsonObj) (key : String)
    (h : hasKey d₁ key = true) : hasKey (d₁ ++ d₂) key = true := by
  unfold hasKey at h ⊢
  rw [lookupKey_append]
  cases hl : lookupKey d₁ key with
  | none => rw [hl] at h; simp [Option.isSome] at h
  | some v => simp [hl]

theorem lookupKey_append_single_ne (d : JsonObj) (k key : String)
    (v : JsonValue) (h : key ≠ k) :
    lookupKey (d ++ [(k, v)]) key = lookupKey d key := by
  rw [lookupKey_append]
  cases hl : lookupKey d key with
  | none => simp [lookupKey]; exact fun hk => h hk.symm
  | some w => simp

/-! ## Claims about assemble_json and standardize_entity_id -/

/-- Claim C4: `assemble_json` is total — for every info mapping and
relations value, the assembled record carries all nine required top-level
keys, and each missing optional key of `info` is replaced by its
documented default: `aliases` by the empty list, `description` and
`background_context` by the empty string, `entity_type` and `attributes`
by the empty mapping. -/
theorem C4_assemble_json_total (p : String → String)
    (label source_file : String) (info : JsonObj) (relations : JsonValue) :
    MASTER_SCHEMA_required.all
      (fun key => hasKey (assemble_json p label source_file info relations) key) = true ∧
    (lookupKey info "aliases" = none →
      lookupKey (assemble_json p label source_file info relations) "aliases" =
        some (JsonValue.arr [])) ∧
    (lookupKey info "description" = none →
      lookupKey (assemble_json p label source_file info relations) "description" =
        some (JsonValue.str "")) ∧
    (lookupKey info "background_context" = none →
      lookupKey (assemble_json p label source_file info relations) "background_context" =
        some (JsonValue.str "")) ∧
    (lookupKey info "entity_type" = none →
      lookupKey (assemble_json p label source_file info relations) "entity_type" =
        some (JsonValue.obj [])) ∧
    (lookupKey info "attributes" = none →
      lookupKey (assemble_json p label source_file info relations) "attributes" =
        some (JsonValue.obj [])) := by
  refine ⟨?_, ?_, ?_, ?_, ?_, ?_⟩
  · simp +decide [MASTER_SCHEMA_required, assemble_json, hasKey, lookupKey]
  all_goals intro h
  all_goals simp +decide [assemble_json, lookupKey, hasKey, getD, h]

/-- Claim C4, witness: the theorem applied to the empty info mapping. -/
theorem C4_assemble_json_total_witness :
    MASTER_SCHEMA_required.all
      (fun key => hasKey (assemble_json id "X" "f.xlsx" [] (JsonValue.arr [])) key) = true ∧
    lookupKey (assemble_json id "X" "f.xlsx" [] (JsonValue.arr [])) "aliases" =
      some (JsonValue.arr []) ∧
    lookupKey (assemble_json id "X" "f.xlsx" [] (JsonValue.arr [])) "description" =
      some (JsonValue.str "") ∧
    lookupKey (assemble_json id "X" "f.xlsx" [] (JsonValue.arr [])) "background_context" =
      some (JsonValue.str "") ∧
    lookupKey (assemble_json id "X" "f.xlsx" [] (JsonValue.arr [])) "entity_type" =
      some (JsonValue.obj []) ∧
    lookupKey (assemble_json id "X" "f.xlsx" [] (JsonValue.arr [])) "attributes" =
      some (JsonValue.obj []) := by
  have h := C4_assemble_json_total id "X" "f.xlsx" [] (JsonValue.arr [])
  exact ⟨h.1, h.2.1 rfl, h.2.2.1 rfl, h.2.2.2.1 rfl, h.2.2.2.2.1 rfl, h.2.2.2.2.2 rfl⟩

/-- Claim C5: the `entity_id` of an assembled record is a function of the
label alone — it equals `standardize_entity_id` of the label and is
unchanged when the info mapping and the relations are varied. -/
theorem C5_entity_id_only_depends_on_label (p : String → String)
    (label source_file : String) (info₁ info₂ : JsonObj)
    (rels₁ rels₂ : JsonValue) :
    lookupKey (assemble_json p label source_file info₁ rels₁) "entity_id" =
      some (JsonValue.str (standardize_entity_id p label)) ∧
    lookupKey (assemble_json p label source_file info₁ rels₁) "entity_id" =
      lookupKey (assemble_json p label source_file info₂ rels₂) "entity_id" := by
  constructor
  · simp [assemble_json, lookupKey]
  · simp [assemble_json, lookupKey]

/-- Claim C6: the canonical identifier contains only characters from
`[A-Za-z0-9]`; in particular the middle dot (U+00B7) and the hyphen
never occur in it, whatever the transliteration collaborator returns. -/
theorem C6_canonical_id_is_alnum (p : String → String) (label : String) :
    (standardize_entity_id p label).data.all isAsciiAlnum = true ∧
    Char.ofNat 183 ∉ (standardize_entity_id p label).data ∧
    Char.ofNat 45 ∉ (standardize_entity_id p label).data := by
  have hdata : (standardize_entity_id p label).data =
      List.filter isAsciiAlnum
        (String.join
          ((pySplitWs
            (p (String.mk (label.data.filter
              (fun c => !isStrippedPunct c))))).map pyCapitalize)).data := rfl
  refine ⟨?_, ?_, ?_⟩
  · rw [hdata]
    exact List.all_eq_true.2 (fun c hc => (List.mem_filter.1 hc).2)
  · rw [hdata]
    intro hc
    have := (List.mem_filter.1 hc).2
    simp [isAsciiAlnum] at this
  · rw [hdata]
    intro hc
    have := (List.mem_filter.1 hc).2
    simp [isAsciiAlnum] at this

/-! ## Claims about validate_schema -/

/-- A record whose nine top-level keys are present and correctly typed,
whose `entity_type` object lacks the nested required key `sub_type`, and
whose single `relations` entry lacks all three nested required keys. -/
def nestedDeficientRecord : JsonObj :=
  [("entity_id", JsonValue.str "ZhongLiBa"),
   ("label", JsonValue.str "重力坝"),
   ("aliases", JsonValue.arr []),
   ("source_file", JsonValue.str "大渡河知识实体.xlsx"),
   ("description", JsonValue.str ""),
   ("background_context", JsonValue.str ""),
   ("entity_type", JsonValue.obj [("primary_type", JsonValue.str "DomainConcept")]),
   ("attributes", JsonValue.obj []),
   ("relations", JsonValue.arr [JsonValue.obj []])]

/-- Claim C1, counterexample: `nestedDeficientRecord` has `entity_type`
present without the nested required key `sub_type`, and a `relations`
entry without `target_entity_id`, `target_label` or `relationship_type`,
yet `validate_schema` accepts it — the claim that such records fail
validation is false of the code. -/
theorem C1_counterexample_nested_fields_not_checked :
    lookupKey nestedDeficientRecord "entity_type" =
      some (JsonValue.obj [("primary_type", JsonValue.str "DomainConcept")]) ∧
    hasKey [("primary_type", JsonValue.str "DomainConcept")] "sub_type" = false ∧
    "sub_type" ∈ ENTITY_TYPE_required ∧
    lookupKey nestedDeficientRecord "relations" =
      some (JsonValue.arr [JsonValue.obj []]) ∧
    RELATION_ITEM_required.all (fun key => hasKey ([] : JsonObj) key) = false ∧
    validate_schema nestedDeficientRecord = true := by
  refine ⟨rfl, rfl, by decide, rfl, rfl, rfl⟩

/-- Claim C1, amended: `validate_schema` checks only the presence of the
nine required top-level keys and the declared top-level runtime shapes;
it never inspects the contents of `entity_type` or of the `relations`
entries, so any record of the right top-level shape passes — whatever
object sits under `entity_type` (in particular one lacking `sub_type` or
`primary_type`) and whatever list sits under `relations` (in particular
entries lacking `target_entity_id`, `target_label` or
`relationship_type`). -/
theorem C1_amended_validate_ignores_nested_fields
    (eid lbl sf desc bg : String) (al : List JsonValue)
    (et attrs : JsonObj) (rels : List JsonValue) :
    validate_schema
      [("entity_id", JsonValue.str eid),
       ("label", JsonValue.str lbl),
       ("aliases", JsonValue.arr al),
       ("source_file", JsonValue.str sf),
       ("description", JsonValue.str desc),
       ("background_context", JsonValue.str bg),
       ("entity_type", JsonValue.obj et),
       ("attributes", JsonValue.obj attrs),
       ("relations", JsonValue.arr rels)] = true := by
  simp +decide [validate_schema, MASTER_SCHEMA_required, MASTER_SCHEMA_properties,
    hasKey, lookupKey, typeMatches]

/-- Claim C10: unknown top-level fields are ignored — extending a record
that passes validation with a key the schema does not name leaves
validation passing. -/
theorem C10_unknown_fields_ignored (r : JsonObj) (k : String) (v : JsonValue)
    (hvalid : validate_schema r = true)
    (hk : k ∉ MASTER_SCHEMA_properties.map Prod.fst) :
    validate_schema (r ++ [(k, v)]) = true := by
  unfold validate_schema at hvalid ⊢
  rw [Bool.and_eq_true] at hvalid ⊢
  obtain ⟨hreq, htypes⟩ := hvalid
  constructor
  · rw [List.all_eq_true] at hreq ⊢
    intro key hkey
    exact hasKey_append_left r [(k, v)] key (hreq key hkey)
  · rw [List.all_eq_true] at htypes ⊢
    intro pr hpr
    have hne : pr.1 ≠ k := by
      intro he
      exact hk (he ▸ List.mem_map_of_mem Prod.fst hpr)
    rw [lookupKey_append_single_ne r k pr.1 v hne]
    exact htypes pr hpr

/-- A record that passes validation, used to instantiate C10. -/
def wellFormedRecord : JsonObj :=
  [("entity_id", JsonValue.str "ShuiKuDiaoDu"),
   ("label", JsonValue.str "水库调度"),
   ("aliases", JsonValue.arr []),
   ("source_file", JsonValue.str "大渡河知识实体.xlsx"),
   ("description", JsonValue.str "d"),
   ("background_context", JsonValue.str "b"),
   ("entity_type", JsonValue.obj
     [("primary_type", JsonValue.str "DomainConcept"),
      ("sub_type", JsonValue.str "EngineeringProcess")]),
   ("attributes", JsonValue.obj []),
   ("relations", JsonValue.arr [])]

/-- Claim C10, witness: the theorem applied to `wellFormedRecord` and the
extra key `extra_key`. -/
theorem C10_unknown_fields_ignored_witness :
    validate_schema wellFormedRecord = true ∧
    "extra_key" ∉ MASTER_SCHEMA_properties.map Prod.fst ∧
    validate_schema (wellFormedRecord ++ [("extra_key", JsonValue.null)]) = true := by
  refine ⟨rfl, by decide, ?_⟩
  exact C10_unknown_fields_ignored wellFormedRecord "extra_key" JsonValue.null rfl (by decide)

/-! ## Claims about the pipeline and the driver -/

/-- A file system whose directory exists and whose writes succeed. -/
def okFS : FS :=
  { path_exists := fun _ => true
    makedirs := fun _ => Except.ok ()
    write := fun _ _ => Except.ok () }

/-- Collaborators whose retrieval stage finds nothing: the LLM and the
parser answer, but the crawler returns the empty string. -/
def emptyRetrievalEnv : Env :=
  { llm := fun _ => Except.ok "[]"
    jsonLoads := fun _ => Except.ok (JsonValue.arr [])
    crawl := fun _ => Except.ok " "
    pinyinGet := id
    fs := okFS }

/-- Claim C3: when retrieval yields an empty or whitespace-only text, the
pipeline returns right after the retrieval stage with the
info-not-found outcome — no later stage starts and nothing reaches the
persistence stage. -/
theorem C3_empty_retrieval_short_circuits (env : Env) (name : String)
    (all : List String) (s : String) (qs : JsonValue) (raw : String)
    (h1 : env.llm (Prompt.queryAugmented name) = Except.ok s)
    (h2 : env.jsonLoads s = Except.ok qs)
    (h3 : env.crawl qs = Except.ok raw)
    (h4 : pyStrip raw = "") :
    process_entity env name all =
      ([Stage.queryAugmented, Stage.retrieval],
       Except.ok ProcessOutcome.infoNotFound) ∧
    Stage.persistence ∉ (process_entity env name all).1 ∧
    ∀ st ∈ (process_entity env name all).1,
      st = Stage.queryAugmented ∨ st = Stage.retrieval := by
  have hmain : process_entity env name all =
      ([Stage.queryAugmented, Stage.retrieval],
       Except.ok ProcessOutcome.infoNotFound) := by
    unfold process_entity
    simp only [h1, h2, h3]
    rw [if_pos (Or.inr h4)]
  refine ⟨hmain, ?_, ?_⟩
  · rw [hmain]; decide
  · rw [hmain]
    intro st hst
    simp only [List.mem_cons, List.not_mem_nil, or_false] at hst
    exact hst

/-- Claim C3, witness: the theorem applied to `emptyRetrievalEnv` and the
label of end-to-end scenario A. -/
theorem C3_empty_retrieval_short_circuits_witness :
    process_entity emptyRetrievalEnv "重力坝" ["重力坝"] =
      ([Stage.queryAugmented, Stage.retrieval],
       Except.ok ProcessOutcome.infoNotFound) ∧
    Stage.persistence ∉ (process_entity emptyRetrievalEnv "重力坝" ["重力坝"]).1 := by
  have h := C3_empty_retrieval_short_circuits emptyRetrievalEnv "重力坝" ["重力坝"]
    "[]" (JsonValue.arr []) " " rfl rfl rfl (by decide)
  exact ⟨h.1, h.2.1⟩

/-- Claim C2: the driver of `main` truncates the roster to its first two
entries before the loop, so with the three-entity roster below the third
entity never reaches the pipeline, contradicting both the claim and the
module docstring of main.py ("processes each one through the pipeline"). -/
theorem C2_third_roster_entity_never_processed :
    entities_to_process ["大渡河", "重力坝", "水库调度"] = ["大渡河", "重力坝"] ∧
    (main_run emptyRetrievalEnv ["大渡河", "重力坝", "水库调度"]).map
        DriverLogEntry.name = ["大渡河", "重力坝"] ∧
    "水库调度" ∈ ["大渡河", "重力坝", "水库调度"] ∧
    "水库调度" ∉ (main_run emptyRetrievalEnv ["大渡河", "重力坝", "水库调度"]).map
        DriverLogEntry.name := by
  refine ⟨rfl, rfl, by decide, by decide⟩

/-- The name recorded by a driver-log entry is the processed entity. -/
theorem driver_step_name (env : Env) (all : List String) (name : String) :
    (driver_step env all name).name = name := by
  unfold driver_step
  rcases process_entity env name all with ⟨tr, out⟩
  cases out <;> rfl

/-- Claim C7: every entity of the processed sequence yields exactly one
driver-log entry whatever its pipeline does — an entity whose run raises
is logged as a critical error with its identity and reason, and the
entries of all other entities are unaffected, so no single failure
aborts the run. -/
theorem C7_driver_isolates_entity_failures (env : Env)
    (all : List String) (hne : all ≠ []) :
    (main_run env all).length = (entities_to_process all).length ∧
    (∀ i : Nat,
      ((main_run env all)[i]?).map DriverLogEntry.name =
        (entities_to_process all)[i]?) ∧
    (∀ name ∈ entities_to_process all, ∀ tr e,
      process_entity env name all = (tr, Except.error e) →
      DriverLogEntry.criticalError name e ∈ main_run env all) := by
  have hmr : main_run env all =
      (entities_to_process all).map (driver_step env all) := by
    unfold main_run
    rw [if_neg]
    simpa using hne
  refine ⟨?_, ?_, ?_⟩
  · rw [hmr, List.length_map]
  · intro i
    rw [hmr, List.getElem?_map]
    cases hget : (entities_to_process all)[i]? with
    | none => rfl
    | some x => simp [driver_step_name]
  · intro name hmem tr e hpe
    rw [hmr]
    refine List.mem_map.2 ⟨name, hmem, ?_⟩
    unfold driver_step
    rw [hpe]

/-- Collaborators whose text-generation backend raises on every call. -/
def faultyLlmEnv : Env :=
  { llm := fun _ => Except.error (PyErr.exn "boom")
    jsonLoads := fun _ => Except.ok JsonValue.null
    crawl := fun _ => Except.ok ""
    pinyinGet := id
    fs := okFS }

/-- Claim C7, witness: under `faultyLlmEnv` both roster entities raise at
their first LLM call, yet each is logged as a critical error and the run
reaches the second entity. -/
theorem C7_driver_isolates_entity_failures_witness :
    (main_run faultyLlmEnv ["大渡河", "重力坝"]).length = 2 ∧
    ((main_run faultyLlmEnv ["大渡河", "重力坝"])[1]?).map DriverLogEntry.name =
      some "重力坝" ∧
    DriverLogEntry.criticalError "大渡河" (PyErr.exn "boom") ∈
      main_run faultyLlmEnv ["大渡河", "重力坝"] ∧
    DriverLogEntry.criticalError "重力坝" (PyErr.exn "boom") ∈
      main_run faultyLlmEnv ["大渡河", "重力坝"] := by
  have h := C7_driver_isolates_entity_failures faultyLlmEnv ["大渡河", "重力坝"]
    (by simp)
  refine ⟨?_, ?_, ?_, ?_⟩
  · rw [h.1]; rfl
  · rw [h.2.1 1]; rfl
  · exact h.2.2 "大渡河" (by simp [entities_to_process])
      [Stage.queryAugmented] (PyErr.exn "boom") rfl
  · exact h.2.2 "重力坝" (by simp [entities_to_process])
      [Stage.queryAugmented] (PyErr.exn "boom") rfl

/-- A file system whose directory exists but whose every write raises. -/
def failingWriteFS : FS :=
  { path_exists := fun _ => true
    makedirs := fun _ => Except.ok ()
    write := fun _ _ => Except.error (PyErr.exn "disk full") }

/-- The LLM answer script of a fully successful extraction run. -/
def scriptedLlm : Prompt → Except PyErr String
  | Prompt.queryAugmented _ => Except.ok "Q"
  | Prompt.typingAndDefinition _ _ => Except.ok "T"
  | Prompt.attributeExtraction _ _ => Except.ok "A"
  | Prompt.relationInference _ _ => Except.ok "R"
  | Prompt.finalValidation _ _ => Except.ok "F"

/-- The parses of the scripted LLM answers. -/
def scriptedParse (s : String) : Except PyErr JsonValue :=
  if s = "Q" then Except.ok (JsonValue.arr [])
  else if s = "T" then
    Except.ok (JsonValue.obj
      [("entity_type", JsonValue.obj
         [("primary_type", JsonValue.str "DomainConcept"),
          ("sub_type", JsonValue.str "EngineeringProcess")]),
       ("description", JsonValue.str "d"),
       ("background_context", JsonValue.str "b")])
  else if s = "A" then Except.ok (JsonValue.obj [])
  else if s = "R" then Except.ok (JsonValue.arr [])
  else if s = "F" then
    Except.ok (JsonValue.obj [("entity_id", JsonValue.str "DaDuHe")])
  else Except.error (PyErr.exn "JSONDecodeError")

/-- Collaborators of a run that succeeds at every stage except the final
file write, which raises. -/
def failingWriteEnv : Env :=
  { llm := scriptedLlm
    jsonLoads := scriptedParse
    crawl := fun _ => Except.ok "some aggregated text"
    pinyinGet := fun _ => "da du he"
    fs := failingWriteFS }

/-- Claim C8: a write failure never escapes `save_json_to_file` — once
the directory step is past, the call returns normally with the failure
only recorded in the `success` flag; and there is a complete pipeline run
in which the write fails yet `process_entity` still returns the normal
`saved` outcome (so main.py line 110 reports the entity as successfully
processed). -/
theorem C8_write_failure_never_propagates :
    (∀ (fs : FS) (data : JsonObj) (dir : String) (e : PyErr),
      (fs.path_exists dir = true ∨ fs.makedirs dir = Except.ok ()) →
      fs.write (save_filepath data dir) data = Except.error e →
      save_json_to_file fs data dir =
        Except.ok { filepath := save_filepath data dir, success := false }) ∧
    (∃ (env : Env) (name : String) (all : List String) (tr : List Stage)
       (r : SaveResult),
      process_entity env name all = (tr, Except.ok (ProcessOutcome.saved r)) ∧
      r.success = false ∧
      driver_step env all name =
        DriverLogEntry.completed name tr (ProcessOutcome.saved r)) := by
  constructor
  · intro fs data dir e hdir hw
    unfold save_json_to_file
    have hok : (if !fs.path_exists dir then fs.makedirs dir
        else Except.ok ()) = Except.ok () := by
      rcases hdir with h | h
      · rw [h]; rfl
      · cases hpe : fs.path_exists dir
        · simpa [hpe] using h
        · rfl
    simp only [hok, hw]
  · exact ⟨failingWriteEnv, "大渡河", ["大渡河"],
      [Stage.queryAugmented, Stage.retrieval, Stage.typing,
       Stage.attributeExtraction, Stage.relationInference, Stage.assembly,
       Stage.validation, Stage.correction, Stage.persistence],
      { filepath := "output/DaDuHe.json", success := false },
      rfl, rfl, rfl⟩

/-- Claim C8, witness: the first part of the theorem applied to
`failingWriteFS`, an empty record and the `output` directory. -/
theorem C8_write_failure_never_propagates_witness :
    failingWriteFS.path_exists "output" = true ∧
    failingWriteFS.write (save_filepath [] "output") [] =
      Except.error (PyErr.exn "disk full") ∧
    save_json_to_file failingWriteFS [] "output" =
      Except.ok { filepath := save_filepath [] "output", success := false } := by
  exact ⟨rfl, rfl,
    C8_write_failure_never_propagates.1 failingWriteFS [] "output"
      (PyErr.exn "disk full") (Or.inl rfl) rfl⟩

/-- Claim C9: a record without the `entity_id` key is not rejected by the
storage writer — its filename falls back to `unknown_entity.json` and,
when the write succeeds, the call reports a successful save there. -/
theorem C9_missing_entity_id_saved_as_unknown (fs : FS) (data : JsonObj)
    (dir : String)
    (hmissing : lookupKey data "entity_id" = none)
    (hdir : fs.path_exists dir = true ∨ fs.makedirs dir = Except.ok ()) :
    save_filepath data dir = dir ++ "/unknown_entity.json" ∧
    (fs.write (dir ++ "/unknown_entity.json") data = Except.ok () →
      save_json_to_file fs data dir =
        Except.ok { filepath := dir ++ "/unknown_entity.json",
                    success := true }) := by
  have hfp : save_filepath data dir = dir ++ "/unknown_entity.json" := by
    unfold save_filepath getD
    rw [hmissing]
    show dir ++ "/" ++ "unknown_entity" ++ ".json" = dir ++ "/unknown_entity.json"
    rw [String.append_assoc, String.append_assoc]
    rfl
  refine ⟨hfp, fun hw => ?_⟩
  have hok : (if !fs.path_exists dir then fs.makedirs dir
      else Except.ok ()) = Except.ok () := by
    rcases hdir with h | h
    · rw [h]; rfl
    · cases hpe : fs.path_exists dir
      · simpa [hpe] using h
      · rfl
  unfold save_json_to_file
  simp only [hok, hfp, hw]

/-- Claim C9, witness: the theorem applied to `okFS`, a record with no
keys at all, and the `output` directory. -/
theorem C9_missing_entity_id_saved_as_unknown_witness :
    save_filepath [] "output" = "output/unknown_entity.json" ∧
    save_json_to_file okFS [] "output" =
      Except.ok { filepath := "output/unknown_entity.json",
                  success := true } := by
  have h := C9_missing_entity_id_saved_as_unknown okFS [] "output" rfl (Or.inl rfl)
  exact ⟨h.1, h.2 rfl⟩

end KnowledgeCrawler
